import Mathlib

/-!
# Verification of the crypto-pay client core

A shallow embedding, in Lean 4, of the validation, builder, serialization and
webhook subsystems of the `crypto-pay-api` Rust client, together with theorems
settling the specification claims about them.

Modelling conventions:
* `rust_decimal::Decimal` is modelled as `Rat` (exact rational arithmetic).
  The claims under study involve only comparisons and one multiplication, for
  which exact rationals agree with the 96-bit fixed-point decimal on every
  value the wire format can carry into these code paths.
* Rust `Result<T, CryptoBotError>` becomes `Except CryptoBotError T`.
* Machine integers (`u64`, `u32`, `u16`) carry no overflow-relevant arithmetic
  in the embedded code paths and are modelled as `Nat`; `i32`/`i64` as `Int`.
* Network effects are made explicit: a build receives the outcome of the
  exchange-rate fetch as a parameter, and it records an event trace so that
  ordering and "no network call" statements are expressible.
-/

namespace CryptoPay

/-- Monetary amounts: `rust_decimal::Decimal` modelled as exact rationals. -/
abbrev Decimal := Rat

/-! ## Currency catalog (src/models/currency.rs) -/

/-- Embeds `CryptoCurrencyCode` from src/models/currency.rs, a closed enumeration with
an `Unknown` sentinel (`#[serde(other)]`). -/
inductive CryptoCurrencyCode where
  | Usdt | Ton | Btc | Eth | Ltc | Bnb | Trx | Usdc | Doge | Send | Jet
  | Unknown
deriving DecidableEq, Repr

/-- Embeds `FiatCurrencyCode` from src/models/currency.rs, a closed enumeration with
an `Unknown` sentinel (`#[serde(other)]`). -/
inductive FiatCurrencyCode where
  | Usd | Eur | Rub | Byn | Uah | Gbp | Cny | Kgs | Kzt | Uzs | Gel | Try
  | Amd | Thb | Tjs | Inr | Brl | Idr | Azn | Aed | Pln | Ils | Lkr
  | Unknown
deriving DecidableEq, Repr

/-- Embeds `CurrencyType` from src/models/currency.rs. -/
inductive CurrencyType where
  | Crypto | Fiat
deriving DecidableEq, Repr

/-- Embeds `CurrencyCode` from src/models/currency.rs: untagged union of the two
code enumerations. -/
inductive CurrencyCode where
  | Crypto (code : CryptoCurrencyCode)
  | Fiat (code : FiatCurrencyCode)
deriving DecidableEq, Repr

/-- Embeds `PayButtonName` from src/models/mod.rs. -/
inductive PayButtonName where
  | ViewItem | OpenChannel | OpenBot | Callback
deriving DecidableEq, Repr

/-- Embeds `InvoiceStatus` from src/models/invoice/mod.rs. -/
inductive InvoiceStatus where
  | Active | Paid | Expired
deriving DecidableEq, Repr

/-- Embeds `CheckStatus` from src/models/check/mod.rs. -/
inductive CheckStatus where
  | Active | Activated
deriving DecidableEq, Repr

/-! ## Error taxonomy (src/error/mod.rs) -/

/-- Embeds `ValidationErrorKind` from src/error/mod.rs. -/
inductive ValidationErrorKind where
  | Format | Range | Currency | Missing | Invalid
deriving DecidableEq, Repr

/-- Embeds `WebhookErrorKind` from src/error/mod.rs. -/
inductive WebhookErrorKind where
  | InvalidSignature | InvalidPayload | DeserializationError | Expired
deriving DecidableEq, Repr

/-- Embeds `CryptoBotError` from src/error/mod.rs. `HttpError` carries reqwest
failures opaque to this development; `ApiError` details are modelled as the
raw diagnostic string they wrap. -/
inductive CryptoBotError where
  | HttpError (message : String)
  | ApiError (code : Int) (message : String) (details : Option String)
  | ValidationError (kind : ValidationErrorKind) (message : String) (field : Option String)
  | WebhookError (kind : WebhookErrorKind) (message : String)
  | NoResult
deriving DecidableEq, Repr

/-! ## Exchange rates and the validation context (src/models/exchange_rate.rs,
src/validation/mod.rs) -/

/-- Embeds `ExchangeRate` from src/models/exchange_rate.rs. -/
structure ExchangeRate where
  is_valid : Bool
  is_crypto : Bool
  is_fiat : Bool
  source : CryptoCurrencyCode
  target : FiatCurrencyCode
  rate : Decimal
deriving DecidableEq, Repr

/-- Embeds `ValidationContext` from src/validation/mod.rs. -/
structure ValidationContext where
  exchange_rates : List ExchangeRate
deriving DecidableEq, Repr

/-! ## Context validation of amounts (src/validation/amount.rs) -/

/-- Embeds `validate_amount` from src/validation/amount.rs lines 8-34: find the first
rate whose source is the requested asset and whose target is USD (`find`),
fail `Missing` when absent, then require `1 ≤ amount * rate ≤ 25000`,
failing `Range` on field "amount" otherwise. -/
def validate_amount (amount : Decimal) (asset : CryptoCurrencyCode)
    (ctx : ValidationContext) : Except CryptoBotError Unit :=
  match ctx.exchange_rates.find?
      (fun rate => decide (rate.source = asset) && decide (rate.target = FiatCurrencyCode.Usd)) with
  | none =>
      .error (.ValidationError .Missing "exchange_rate_not_found" (some "exchange_rate"))
  | some usd_rate =>
      let usd_value := amount * usd_rate.rate
      if usd_value < 1 ∨ usd_value > 25000 then
        .error (.ValidationError .Range "Amount must be between 1 and 25000 USD" (some "amount"))
      else
        .ok ()

/-- Embeds `validate_count` from src/validation/count.rs. -/
def validate_count (count : Nat) : Except CryptoBotError Unit :=
  if ¬ (1 ≤ count ∧ count ≤ 1000) then
    .error (.ValidationError .Range "Count must be between 1 and 1000" (some "count"))
  else
    .ok ()

/-! ## Build pipeline events

A `build` call in the source performs, in order: local field validation, one
HTTP fetch of exchange rates, context validation. The embedding threads the
fetch outcome in as a parameter and records which stages actually ran, so the
ordering and absence of the network call are visible in the result. -/

/-- The observable stages of a `build` call. -/
inductive BuildStep where
  | fieldValidate | fetchRates | contextValidate
deriving DecidableEq, Repr

/-! ## CreateInvoice builder (src/models/invoice/builder.rs) -/

/-- The data fields of `CreateInvoiceParamsBuilder` (builder.rs lines
107-123), without the `PhantomData` typestate marker, which is modelled
separately as `InvoiceTypestate`. -/
structure CreateInvoiceParamsBuilder where
  currency_type : Option CurrencyType
  asset : Option CryptoCurrencyCode
  fiat : Option FiatCurrencyCode
  accept_asset : Option (List CryptoCurrencyCode)
  amount : Decimal
  description : Option String
  hidden_message : Option String
  paid_btn_name : Option PayButtonName
  paid_btn_url : Option String
  payload : Option String
  allow_comments : Option Bool
  allow_anonymous : Option Bool
  expires_in : Option Nat
deriving DecidableEq, Repr

/-- The four phantom type parameters `(A, C, P, U)` of the Rust builder
(amount, currency choice, paid button name, paid button url), modelled as
explicit set/missing flags: `true` is `Set`, `false` is `Missing`. -/
structure InvoiceTypestate where
  amount_set : Bool
  currency_set : Bool
  paid_btn_name_set : Bool
  paid_btn_url_set : Bool
deriving DecidableEq, Repr

/-- A draft: field values plus typestate marker. -/
structure InvoiceDraft where
  params : CreateInvoiceParamsBuilder
  marker : InvoiceTypestate
deriving DecidableEq, Repr

/-- Embeds `CreateInvoiceParamsBuilder::new` (builder.rs lines 127-144). -/
def CreateInvoiceParamsBuilder.new : CreateInvoiceParamsBuilder where
  currency_type := some .Crypto
  asset := none
  fiat := none
  accept_asset := none
  amount := 0
  description := none
  hidden_message := none
  paid_btn_name := none
  paid_btn_url := none
  payload := none
  allow_comments := none
  allow_anonymous := none
  expires_in := none

/-- A fresh draft: `new()` starts in state `<Missing, Missing, Missing, Missing>`. -/
def InvoiceDraft.new : InvoiceDraft :=
  ⟨CreateInvoiceParamsBuilder.new, ⟨false, false, false, false⟩⟩

/-- Embeds `amount` setter (builder.rs lines 147-153): sets the amount and moves
`A` from `Missing` to `Set`. -/
def InvoiceDraft.amount (d : InvoiceDraft) (v : Decimal) : InvoiceDraft :=
  ⟨{ d.params with amount := v }, { d.marker with amount_set := true }⟩

/-- Embeds `asset` setter (builder.rs lines 156-161): sets `currency_type` to
`Crypto` and the asset, and moves `C` from `Missing` to `Set`. -/
def InvoiceDraft.asset (d : InvoiceDraft) (v : CryptoCurrencyCode) : InvoiceDraft :=
  ⟨{ d.params with currency_type := some .Crypto, asset := some v },
   { d.marker with currency_set := true }⟩

/-- Embeds `fiat` setter (builder.rs lines 163-168): sets `currency_type` to
`Fiat` and the fiat code, and moves `C` from `Missing` to `Set`. -/
def InvoiceDraft.fiat (d : InvoiceDraft) (v : FiatCurrencyCode) : InvoiceDraft :=
  ⟨{ d.params with currency_type := some .Fiat, fiat := some v },
   { d.marker with currency_set := true }⟩

/-- Embeds `paid_btn_name` setter (builder.rs lines 179-185). -/
def InvoiceDraft.paid_btn_name (d : InvoiceDraft) (v : PayButtonName) : InvoiceDraft :=
  ⟨{ d.params with paid_btn_name := some v }, { d.marker with paid_btn_name_set := true }⟩

/-- Embeds `paid_btn_url` setter (builder.rs lines 193-199), reachable only from
`P = Set` in the source. -/
def InvoiceDraft.paid_btn_url (d : InvoiceDraft) (v : String) : InvoiceDraft :=
  ⟨{ d.params with paid_btn_url := some v }, { d.marker with paid_btn_url_set := true }⟩

/-- Embeds `accept_asset` optional setter (builder.rs lines 205-208). -/
def InvoiceDraft.accept_asset (d : InvoiceDraft) (v : List CryptoCurrencyCode) : InvoiceDraft :=
  ⟨{ d.params with accept_asset := some v }, d.marker⟩

/-- Embeds `description` optional setter (builder.rs lines 213-216). -/
def InvoiceDraft.description (d : InvoiceDraft) (v : String) : InvoiceDraft :=
  ⟨{ d.params with description := some v }, d.marker⟩

/-- Embeds `hidden_message` optional setter (builder.rs lines 221-224). -/
def InvoiceDraft.hidden_message (d : InvoiceDraft) (v : String) : InvoiceDraft :=
  ⟨{ d.params with hidden_message := some v }, d.marker⟩

/-- Embeds `payload` optional setter (builder.rs lines 229-232). -/
def InvoiceDraft.payload (d : InvoiceDraft) (v : String) : InvoiceDraft :=
  ⟨{ d.params with payload := some v }, d.marker⟩

/-- Embeds `allow_comments` optional setter (builder.rs lines 237-240). -/
def InvoiceDraft.allow_comments (d : InvoiceDraft) (v : Bool) : InvoiceDraft :=
  ⟨{ d.params with allow_comments := some v }, d.marker⟩

/-- Embeds `allow_anonymous` optional setter (builder.rs lines 245-248). -/
def InvoiceDraft.allow_anonymous (d : InvoiceDraft) (v : Bool) : InvoiceDraft :=
  ⟨{ d.params with allow_anonymous := some v }, d.marker⟩

/-- Embeds `expires_in` optional setter (builder.rs lines 253-256). -/
def InvoiceDraft.expires_in (d : InvoiceDraft) (v : Nat) : InvoiceDraft :=
  ⟨{ d.params with expires_in := some v }, d.marker⟩

/-- Embeds `FieldValidate for CreateInvoiceParamsBuilder` (builder.rs lines 278-334):
fail-fast local checks. Note the amount check is `amount < 0`, not
`amount ≤ 0`, although its message reads "Amount must be greater than 0". -/
def CreateInvoiceParamsBuilder.fieldValidate (b : CreateInvoiceParamsBuilder) :
    Except CryptoBotError Unit := do
  if b.amount < 0 then
    throw (.ValidationError .Range "Amount must be greater than 0" (some "amount"))
  if let some desc := b.description then
    if desc.length > 1024 then
      throw (.ValidationError .Range "description_too_long" (some "description"))
  if let some msg := b.hidden_message then
    if msg.length > 2048 then
      throw (.ValidationError .Range "hidden_message_too_long" (some "hidden_message"))
  if let some payload := b.payload then
    if payload.length > 4096 then
      throw (.ValidationError .Range "payload_too_long" (some "payload"))
  if let some expires_in := b.expires_in then
    if ¬ (1 ≤ expires_in ∧ expires_in ≤ 2678400) then
      throw (.ValidationError .Range "expires_in_invalid" (some "expires_in"))

/-- Embeds `ContextValidate for CreateInvoiceParamsBuilder` (builder.rs lines
401-409): amount validation runs only when a crypto asset is present. -/
def CreateInvoiceParamsBuilder.validateWithContext (b : CreateInvoiceParamsBuilder)
    (ctx : ValidationContext) : Except CryptoBotError Unit :=
  match b.asset with
  | some asset => validate_amount b.amount asset ctx
  | none => .ok ()

/-- Embeds `CreateInvoiceParams` (src/models/invoice/params.rs), the finalized,
wire-ready request value. -/
structure CreateInvoiceParams where
  currency_type : Option CurrencyType
  asset : Option CryptoCurrencyCode
  fiat : Option FiatCurrencyCode
  accept_asset : Option (List CryptoCurrencyCode)
  amount : Decimal
  description : Option String
  hidden_message : Option String
  paid_btn_name : Option PayButtonName
  paid_btn_url : Option String
  payload : Option String
  allow_comments : Option Bool
  allow_anonymous : Option Bool
  expires_in : Option Nat
deriving DecidableEq, Repr

/-- Embeds `CreateInvoiceParamsBuilder::build` for state `<Set, Set, Missing,
Missing>` (builder.rs lines 336-360). The exchange-rate fetch
(`client.get_exchange_rates()`) is passed in as its outcome `fetch`; the
returned trace records which stages ran, in order. -/
def CreateInvoiceParamsBuilder.build (b : CreateInvoiceParamsBuilder)
    (fetch : Except CryptoBotError (List ExchangeRate)) :
    Except CryptoBotError CreateInvoiceParams × List BuildStep :=
  match b.fieldValidate with
  | .error e => (.error e, [.fieldValidate])
  | .ok _ =>
    match fetch with
    | .error e => (.error e, [.fieldValidate, .fetchRates])
    | .ok exchange_rates =>
      match b.validateWithContext ⟨exchange_rates⟩ with
      | .error e => (.error e, [.fieldValidate, .fetchRates, .contextValidate])
      | .ok _ =>
        (.ok ⟨b.currency_type, b.asset, b.fiat, b.accept_asset, b.amount,
              b.description, b.hidden_message, b.paid_btn_name, b.paid_btn_url,
              b.payload, b.allow_comments, b.allow_anonymous, b.expires_in⟩,
         [.fieldValidate, .fetchRates, .contextValidate])

/-! ## CreateCheck builder (src/models/check/builder.rs) -/

/-- The data fields of `CreateCheckParamsBuilder` (check/builder.rs lines
18-24), phantom typestate `(A, M)` omitted (it gates which calls typecheck
in Rust, and no claim concerns the check typestate). -/
structure CreateCheckParamsBuilder where
  asset : CryptoCurrencyCode
  amount : Decimal
  pin_to_user_id : Option Nat
  pin_to_username : Option String
deriving DecidableEq, Repr

/-- Embeds `CreateCheckParamsBuilder::default`/`new` (check/builder.rs lines 26-43). -/
def CreateCheckParamsBuilder.new : CreateCheckParamsBuilder where
  asset := .Ton
  amount := 0
  pin_to_user_id := none
  pin_to_username := none

/-- Embeds `FieldValidate for CreateCheckParamsBuilder<Set, Set>` (check/builder.rs
lines 89-100). As for invoices, the check is `amount < 0`, not `≤ 0`. -/
def CreateCheckParamsBuilder.fieldValidate (b : CreateCheckParamsBuilder) :
    Except CryptoBotError Unit :=
  if b.amount < 0 then
    .error (.ValidationError .Range "Amount must be greater than 0" (some "amount"))
  else
    .ok ()

/-- Embeds `CreateCheckParams` (src/models/check/params.rs lines 11-27). -/
structure CreateCheckParams where
  asset : CryptoCurrencyCode
  amount : Decimal
  pin_to_user_id : Option Nat
  pin_to_username : Option String
deriving DecidableEq, Repr

/-- Embeds `CreateCheckParamsBuilder::build` (check/builder.rs lines 109-126),
with the rate fetch passed in and the stage trace recorded. Context
validation is `validate_amount` unconditionally (lines 102-107). -/
def CreateCheckParamsBuilder.build (b : CreateCheckParamsBuilder)
    (fetch : Except CryptoBotError (List ExchangeRate)) :
    Except CryptoBotError CreateCheckParams × List BuildStep :=
  match b.fieldValidate with
  | .error e => (.error e, [.fieldValidate])
  | .ok _ =>
    match fetch with
    | .error e => (.error e, [.fieldValidate, .fetchRates])
    | .ok exchange_rates =>
      match validate_amount b.amount b.asset ⟨exchange_rates⟩ with
      | .error e => (.error e, [.fieldValidate, .fetchRates, .contextValidate])
      | .ok _ =>
        (.ok ⟨b.asset, b.amount, b.pin_to_user_id, b.pin_to_username⟩,
         [.fieldValidate, .fetchRates, .contextValidate])

/-! ## Transfer builder (src/models/transfer/builder.rs) -/

/-- The data fields of `TransferParamsBuilder` (transfer/builder.rs lines
98-107), with the `(U, A, M, S)` phantom typestate modelled separately. -/
structure TransferParamsBuilder where
  user_id : Nat
  asset : CryptoCurrencyCode
  amount : Decimal
  spend_id : String
  comment : Option String
  disable_send_notification : Option Bool
deriving DecidableEq, Repr

/-- The `(U, A, M, S)` phantom parameters (user id, asset, amount, spend id)
as explicit set/missing flags. -/
structure TransferTypestate where
  user_id_set : Bool
  asset_set : Bool
  amount_set : Bool
  spend_id_set : Bool
deriving DecidableEq, Repr

/-- A transfer draft: field values plus typestate marker. -/
structure TransferDraft where
  params : TransferParamsBuilder
  marker : TransferTypestate
deriving DecidableEq, Repr

/-- Embeds `TransferParamsBuilder::new` (transfer/builder.rs lines 109-122). -/
def TransferParamsBuilder.new : TransferParamsBuilder where
  user_id := 0
  asset := .Ton
  amount := 0
  spend_id := ""
  comment := none
  disable_send_notification := none

/-- A fresh transfer draft in state `<Missing, Missing, Missing, Missing>`. -/
def TransferDraft.new : TransferDraft :=
  ⟨TransferParamsBuilder.new, ⟨false, false, false, false⟩⟩

/-- Embeds `user_id` setter (transfer/builder.rs lines 130-136). -/
def TransferDraft.user_id (d : TransferDraft) (v : Nat) : TransferDraft :=
  ⟨{ d.params with user_id := v }, { d.marker with user_id_set := true }⟩

/-- Embeds `asset` setter (transfer/builder.rs lines 138-144). -/
def TransferDraft.asset (d : TransferDraft) (v : CryptoCurrencyCode) : TransferDraft :=
  ⟨{ d.params with asset := v }, { d.marker with asset_set := true }⟩

/-- Embeds `amount` setter (transfer/builder.rs lines 146-153). -/
def TransferDraft.amount (d : TransferDraft) (v : Decimal) : TransferDraft :=
  ⟨{ d.params with amount := v }, { d.marker with amount_set := true }⟩

/-- Embeds `spend_id` setter (transfer/builder.rs lines 155-164). -/
def TransferDraft.spend_id (d : TransferDraft) (v : String) : TransferDraft :=
  ⟨{ d.params with spend_id := v }, { d.marker with spend_id_set := true }⟩

/-- Embeds `comment` optional setter (transfer/builder.rs lines 171-174). -/
def TransferDraft.comment (d : TransferDraft) (v : String) : TransferDraft :=
  ⟨{ d.params with comment := some v }, d.marker⟩

/-- Embeds `disable_send_notification` optional setter (transfer/builder.rs lines
179-182). -/
def TransferDraft.disable_send_notification (d : TransferDraft) (v : Bool) : TransferDraft :=
  ⟨{ d.params with disable_send_notification := some v }, d.marker⟩

/-- Embeds `FieldValidate for TransferParamsBuilder<Set, Set, Set, Set>`
(transfer/builder.rs lines 197-219). -/
def TransferParamsBuilder.fieldValidate (b : TransferParamsBuilder) :
    Except CryptoBotError Unit := do
  if b.spend_id.length > 64 then
    throw (.ValidationError .Range "Spend ID must be less than 64 symbols" (some "spend_id"))
  if let some comment := b.comment then
    if comment.length > 1024 then
      throw (.ValidationError .Range "Comment must be less than 1024 symbols" (some "comment"))

/-- Embeds `TransferParams` (src/models/transfer/params.rs lines 52-75). -/
structure TransferParams where
  user_id : Nat
  asset : CryptoCurrencyCode
  amount : Decimal
  spend_id : String
  comment : Option String
  disable_send_notification : Option Bool
deriving DecidableEq, Repr

/-- Embeds `TransferParamsBuilder::build` (transfer/builder.rs lines 228-249), with
the rate fetch passed in and the stage trace recorded. Context validation is
`validate_amount` unconditionally (lines 221-226). -/
def TransferParamsBuilder.build (b : TransferParamsBuilder)
    (fetch : Except CryptoBotError (List ExchangeRate)) :
    Except CryptoBotError TransferParams × List BuildStep :=
  match b.fieldValidate with
  | .error e => (.error e, [.fieldValidate])
  | .ok _ =>
    match fetch with
    | .error e => (.error e, [.fieldValidate, .fetchRates])
    | .ok exchange_rates =>
      match validate_amount b.amount b.asset ⟨exchange_rates⟩ with
      | .error e => (.error e, [.fieldValidate, .fetchRates, .contextValidate])
      | .ok _ =>
        (.ok ⟨b.user_id, b.asset, b.amount, b.spend_id, b.comment,
              b.disable_send_notification⟩,
         [.fieldValidate, .fetchRates, .contextValidate])

/-! ## Wire spellings of the enumerations (serde attributes in
src/models/currency.rs, check/mod.rs, invoice/mod.rs) -/

/-- Serialized spelling of a crypto code (`#[serde(rename_all = "UPPERCASE")]`). -/
def CryptoCurrencyCode.wire : CryptoCurrencyCode → String
  | .Usdt => "USDT" | .Ton => "TON" | .Btc => "BTC" | .Eth => "ETH"
  | .Ltc => "LTC" | .Bnb => "BNB" | .Trx => "TRX" | .Usdc => "USDC"
  | .Doge => "DOGE" | .Send => "SEND" | .Jet => "JET" | .Unknown => "UNKNOWN"

/-- Serialized spelling of a fiat code (`#[serde(rename_all = "UPPERCASE")]`). -/
def FiatCurrencyCode.wire : FiatCurrencyCode → String
  | .Usd => "USD" | .Eur => "EUR" | .Rub => "RUB" | .Byn => "BYN"
  | .Uah => "UAH" | .Gbp => "GBP" | .Cny => "CNY" | .Kgs => "KGS"
  | .Kzt => "KZT" | .Uzs => "UZS" | .Gel => "GEL" | .Try => "TRY"
  | .Amd => "AMD" | .Thb => "THB" | .Tjs => "TJS" | .Inr => "INR"
  | .Brl => "BRL" | .Idr => "IDR" | .Azn => "AZN" | .Aed => "AED"
  | .Pln => "PLN" | .Ils => "ILS" | .Lkr => "LKR" | .Unknown => "UNKNOWN"

/-- Serialized spelling of a check status (`#[serde(rename_all = "lowercase")]`). -/
def CheckStatus.wire : CheckStatus → String
  | .Active => "active" | .Activated => "activated"

/-- Serialized spelling of an invoice status (`#[serde(rename_all = "lowercase")]`). -/
def InvoiceStatus.wire : InvoiceStatus → String
  | .Active => "active" | .Paid => "paid" | .Expired => "expired"

/-- Deserialization of a crypto code: the serde derive matches the UPPERCASE
spellings and maps every other string to the `#[serde(other)]` variant
`Unknown` (src/models/currency.rs lines 36-52). -/
def CryptoCurrencyCode.fromWire (s : String) : CryptoCurrencyCode :=
  match s with
  | "USDT" => .Usdt | "TON" => .Ton | "BTC" => .Btc | "ETH" => .Eth
  | "LTC" => .Ltc | "BNB" => .Bnb | "TRX" => .Trx | "USDC" => .Usdc
  | "DOGE" => .Doge | "SEND" => .Send | "JET" => .Jet
  | _ => .Unknown

/-- Deserialization of a fiat code: UPPERCASE spellings, everything else to
the `#[serde(other)]` variant `Unknown` (src/models/currency.rs lines 61-89). -/
def FiatCurrencyCode.fromWire (s : String) : FiatCurrencyCode :=
  match s with
  | "USD" => .Usd | "EUR" => .Eur | "RUB" => .Rub | "BYN" => .Byn
  | "UAH" => .Uah | "GBP" => .Gbp | "CNY" => .Cny | "KGS" => .Kgs
  | "KZT" => .Kzt | "UZS" => .Uzs | "GEL" => .Gel | "TRY" => .Try
  | "AMD" => .Amd | "THB" => .Thb | "TJS" => .Tjs | "INR" => .Inr
  | "BRL" => .Brl | "IDR" => .Idr | "AZN" => .Azn | "AED" => .Aed
  | "PLN" => .Pln | "ILS" => .Ils | "LKR" => .Lkr
  | _ => .Unknown

/-- Embeds `deserialize_currency_code` from src/utils/serde_helpers.rs lines 88-107:
try the crypto enumeration, accept unless it hit the `Unknown` sentinel; then
the fiat enumeration likewise; otherwise fail with a custom error. -/
def deserialize_currency_code (code : String) : Except String CurrencyCode :=
  let crypto := CryptoCurrencyCode.fromWire code
  if crypto ≠ CryptoCurrencyCode.Unknown then
    .ok (.Crypto crypto)
  else
    let fiat := FiatCurrencyCode.fromWire code
    if fiat ≠ FiatCurrencyCode.Unknown then
      .ok (.Fiat fiat)
    else
      .error ("Invalid currency code: " ++ code)

/-! ## Serialization of list-valued filter fields
(src/utils/serde_helpers.rs, src/models/(check|invoice|transfer)/params.rs) -/

/-- A serialized JSON value, as much of it as the request bodies need. -/
inductive JsonVal where
  | str (s : String)
  | num (n : Nat)
  | bool (b : Bool)
  | arr (elems : List JsonVal)

/-- Embeds `serialize_comma_separated_list` from src/utils/serde_helpers.rs lines
9-19, on the unwrapped list: each id rendered in decimal and joined with
commas, emitted as a JSON string. The `None` arm of the source is
`unreachable!()` — serde only calls the serializer when
`skip_serializing_if` returned false, which implies the field is `Some`. -/
def serialize_comma_separated_list (ids : List Nat) : String :=
  String.intercalate "," (ids.map Nat.repr)

/-- Embeds `GetChecksParams::should_skip_check_ids` (check/params.rs lines 59-63):
skip unless the field is present and non-empty. -/
def GetChecksParams.should_skip_check_ids (check_ids : Option (List Nat)) : Bool :=
  ! (match check_ids with
     | some ids => !ids.isEmpty
     | none => false)

/-- Embeds `GetInvoicesParams::should_skip_invoice_ids` (invoice/params.rs lines
46-50): same shape as for checks. -/
def GetInvoicesParams.should_skip_invoice_ids (ids : Option (List Nat)) : Bool :=
  ! (match ids with
     | some ids => !ids.isEmpty
     | none => false)

/-- Embeds `GetTransfersParams::should_skip_transfer_ids` (transfer/params.rs lines
39-43): same shape as for checks. -/
def GetTransfersParams.should_skip_transfer_ids (ids : Option (List Nat)) : Bool :=
  ! (match ids with
     | some ids => !ids.isEmpty
     | none => false)

/-- Embeds `GetChecksParams` (check/params.rs lines 29-57). -/
structure GetChecksParams where
  asset : Option CryptoCurrencyCode
  check_ids : Option (List Nat)
  status : Option CheckStatus
  offset : Option Nat
  count : Option Nat
deriving DecidableEq, Repr

/-- Serialization of `GetChecksParams` per its serde attributes: each
`Option` field is skipped when `None`, `check_ids` is skipped according to
`should_skip_check_ids` and otherwise rendered by
`serialize_comma_separated_list`; fields appear in declaration order. -/
def GetChecksParams.serialize (p : GetChecksParams) : List (String × JsonVal) :=
  (match p.asset with
   | some a => [("asset", JsonVal.str a.wire)]
   | none => []) ++
  (if GetChecksParams.should_skip_check_ids p.check_ids then []
   else [("check_ids", JsonVal.str (serialize_comma_separated_list (p.check_ids.getD [])))]) ++
  (match p.status with
   | some st => [("status", JsonVal.str st.wire)]
   | none => []) ++
  (match p.offset with
   | some o => [("offset", JsonVal.num o)]
   | none => []) ++
  (match p.count with
   | some c => [("count", JsonVal.num c)]
   | none => [])

/-- Embeds `GetInvoicesParams` (invoice/params.rs lines 13-44). -/
structure GetInvoicesParams where
  asset : Option CryptoCurrencyCode
  fiat : Option FiatCurrencyCode
  invoice_ids : Option (List Nat)
  status : Option InvoiceStatus
  offset : Option Nat
  count : Option Nat
deriving DecidableEq, Repr

/-- Serialization of `GetInvoicesParams` per its serde attributes. -/
def GetInvoicesParams.serialize (p : GetInvoicesParams) : List (String × JsonVal) :=
  (match p.asset with
   | some a => [("asset", JsonVal.str a.wire)]
   | none => []) ++
  (match p.fiat with
   | some f => [("fiat", JsonVal.str f.wire)]
   | none => []) ++
  (if GetInvoicesParams.should_skip_invoice_ids p.invoice_ids then []
   else [("invoice_ids", JsonVal.str (serialize_comma_separated_list (p.invoice_ids.getD [])))]) ++
  (match p.status with
   | some st => [("status", JsonVal.str st.wire)]
   | none => []) ++
  (match p.offset with
   | some o => [("offset", JsonVal.num o)]
   | none => []) ++
  (match p.count with
   | some c => [("count", JsonVal.num c)]
   | none => [])

/-- Embeds `GetTransfersParams` (transfer/params.rs lines 10-35). -/
structure GetTransfersParams where
  asset : Option CryptoCurrencyCode
  transfer_ids : Option (List Nat)
  spend_id : Option String
  offset : Option Nat
  count : Option Nat
deriving DecidableEq, Repr

/-- Serialization of `GetTransfersParams` per its serde attributes. -/
def GetTransfersParams.serialize (p : GetTransfersParams) : List (String × JsonVal) :=
  (match p.asset with
   | some a => [("asset", JsonVal.str a.wire)]
   | none => []) ++
  (if GetTransfersParams.should_skip_transfer_ids p.transfer_ids then []
   else [("transfer_ids", JsonVal.str (serialize_comma_separated_list (p.transfer_ids.getD [])))]) ++
  (match p.spend_id with
   | some s => [("spend_id", JsonVal.str s)]
   | none => []) ++
  (match p.offset with
   | some o => [("offset", JsonVal.num o)]
   | none => []) ++
  (match p.count with
   | some c => [("count", JsonVal.num c)]
   | none => [])

/-! ## Response envelope handling (src/client/mod.rs) -/

/-- Embeds `ApiResponse<T>` from src/models/response.rs. -/
structure ApiResponse (R : Type) where
  ok : Bool
  result : Option R
  error : Option String
  error_code : Option Int
deriving DecidableEq, Repr

/-- The decode-and-interpret stage of `CryptoBot::make_request`
(src/client/mod.rs lines 114-131): `parsed` is the outcome of
`serde_json::from_str` on the body text, carrying the decode diagnostic on
failure. A decode failure becomes an `ApiError` with the sentinel code `-1`;
an envelope with `ok = false` becomes an `ApiError` from `error_code`
(default 0) and `error` (default empty); `ok = true` without a `result` is
the distinct `NoResult` error. -/
def CryptoBot.processResponse {R : Type} (parsed : Except String (ApiResponse R)) :
    Except CryptoBotError R :=
  match parsed with
  | .error e =>
      .error (.ApiError (-1) "Failed to parse API response" (some e))
  | .ok api_response =>
      if !api_response.ok then
        .error (.ApiError (api_response.error_code.getD 0) (api_response.error.getD "") none)
      else
        match api_response.result with
        | some r => .ok r
        | none => .error .NoResult

/-! ## Webhook handler freshness (src/webhook/handler.rs, src/webhook/config.rs) -/

/-- Embeds `DEFAULT_WEBHOOK_EXPIRATION_TIME` from src/client/mod.rs line 19. -/
def DEFAULT_WEBHOOK_EXPIRATION_TIME : Nat := 600

/-- The state of `WebhookHandler` (webhook/handler.rs lines 19-23) relevant
to freshness: the API token and the optional expiration window in seconds.
`WebhookHandlerConfigBuilder::disable_expiration` (webhook/config.rs lines
46-49) produces `webhook_expiration_time = none`. -/
structure WebhookHandler where
  api_token : String
  webhook_expiration_time : Option Nat
deriving DecidableEq, Repr

/-- Embeds `WebhookResponse` from src/webhook/mod.rs. -/
structure WebhookResponse where
  ok : Bool
deriving DecidableEq, Repr

/-- The freshness stage of `WebhookHandler::handle_update`
(webhook/handler.rs lines 179-193), over timestamps in whole epoch seconds:
`age = now − request_date` (`signed_duration_since`), and the window is
`webhook_expiration_time.unwrap_or(600)` — the `None` (disabled) case falls
back to the default rather than skipping the check. -/
def WebhookHandler.checkExpiration (h : WebhookHandler) (now request_date : Int) :
    Except CryptoBotError Unit :=
  let age := now - request_date
  let webhook_expiration_time : Nat :=
    h.webhook_expiration_time.getD DEFAULT_WEBHOOK_EXPIRATION_TIME
  if age > (webhook_expiration_time : Int) then
    .error (.WebhookError .Expired "Webhook request too old")
  else
    .ok ()

/-- Embeds `WebhookHandler::handle_update` (webhook/handler.rs lines 168-200) after
a successful payload parse, for an update whose `request_date` parsed to the
given epoch second (the well-formed case), with no registered handler
callback: the freshness check, then the acknowledgement `{ok: true}`. -/
def WebhookHandler.handleUpdateParsed (h : WebhookHandler) (now request_date : Int) :
    Except CryptoBotError WebhookResponse := do
  h.checkExpiration now request_date
  pure ⟨true⟩

/-! ## SHA-256, HMAC and hex (src/webhook/handler.rs lines 112-124)

`verify_signature` computes `HMAC-SHA-256` keyed by `SHA-256(api_token)` over
the body bytes and compares it with the hex-decoded signature. The `sha2`,
`hmac` and `hex` crates it uses are embedded below: SHA-256 per FIPS 180-4
over byte lists (bytes and 32-bit words as `Nat` reduced mod `2^32`), HMAC
per RFC 2104 with a 64-byte block, and `hex::decode`, which accepts mixed
case and fails on odd length or non-hex characters. -/

/-- Right rotation of a 32-bit word held in a `Nat`. -/
def rotr32 (n x : Nat) : Nat :=
  ((x >>> n) ||| (x <<< (32 - n))) % 4294967296

/-- SHA-256 `Ch(e, f, g)`; complement taken within 32 bits. -/
def shaCh (e f g : Nat) : Nat :=
  (e &&& f) ^^^ ((e ^^^ 4294967295) &&& g)

/-- SHA-256 `Maj(a, b, c)`. -/
def shaMaj (a b c : Nat) : Nat :=
  (a &&& b) ^^^ (a &&& c) ^^^ (b &&& c)

/-- SHA-256 big sigma 0. -/
def bigSigma0 (x : Nat) : Nat := rotr32 2 x ^^^ rotr32 13 x ^^^ rotr32 22 x

/-- SHA-256 big sigma 1. -/
def bigSigma1 (x : Nat) : Nat := rotr32 6 x ^^^ rotr32 11 x ^^^ rotr32 25 x

/-- SHA-256 small sigma 0. -/
def smallSigma0 (x : Nat) : Nat := rotr32 7 x ^^^ rotr32 18 x ^^^ (x >>> 3)

/-- SHA-256 small sigma 1. -/
def smallSigma1 (x : Nat) : Nat := rotr32 17 x ^^^ rotr32 19 x ^^^ (x >>> 10)

/-- The 64 SHA-256 round constants of FIPS 180-4 (decimal). -/
def shaK : List Nat :=
  [1116352408, 1899447441, 3049323471, 3921009573,
   961987163, 1508970993, 2453635748, 2870763221,
   3624381080, 310598401, 607225278, 1426881987,
   1925078388, 2162078206, 2614888103, 3248222580,
   3835390401, 4022224774, 264347078, 604807628,
   770255983, 1249150122, 1555081692, 1996064986,
   2554220882, 2821834349, 2952996808, 3210313671,
   3336571891, 3584528711, 113926993, 338241895,
   666307205, 773529912, 1294757372, 1396182291,
   1695183700, 1986661051, 2177026350, 2456956037,
   2730485921, 2820302411, 3259730800, 3345764771,
   3516065817, 3600352804, 4094571909, 275423344,
   430227734, 506948616, 659060556, 883997877,
   958139571, 1322822218, 1537002063, 1747873779,
   1955562222, 2024104815, 2227730452, 2361852424,
   2428436474, 2756734187, 3204031479, 3329325298]

/-- The SHA-256 working state: eight 32-bit words. -/
structure Hash8 where
  a : Nat
  b : Nat
  c : Nat
  d : Nat
  e : Nat
  f : Nat
  g : Nat
  h : Nat
deriving DecidableEq, Repr

/-- The SHA-256 initial hash value of FIPS 180-4 (decimal). -/
def shaH0 : Hash8 :=
  ⟨1779033703, 3144134277, 1013904242, 2773480762,
   1359893119, 2600822924, 528734635, 1541459225⟩

/-- One SHA-256 round. -/
def shaRound (st : Hash8) (k w : Nat) : Hash8 :=
  let t1 := (st.h + bigSigma1 st.e + shaCh st.e st.f st.g + k + w) % 4294967296
  let t2 := (bigSigma0 st.a + shaMaj st.a st.b st.c) % 4294967296
  ⟨(t1 + t2) % 4294967296, st.a, st.b, st.c, (st.d + t1) % 4294967296, st.e, st.f, st.g⟩

/-- Big-endian bytes of a value, most significant first, `n` bytes. -/
def beBytes (n v : Nat) : List Nat :=
  (List.range n).map (fun i => (v >>> (8 * (n - 1 - i))) % 256)

/-- Merge bytes four at a time into 32-bit words. -/
def toWords : List Nat → List Nat
  | b0 :: b1 :: b2 :: b3 :: rest =>
      (((b0 * 256 + b1) * 256 + b2) * 256 + b3) :: toWords rest
  | _ => []

/-- SHA-256 padding: append `0x80`, zeros to 56 mod 64, then the bit length
as eight big-endian bytes. -/
def padMessage (msg : List Nat) : List Nat :=
  let padZeros := (119 - msg.length % 64) % 64
  msg ++ [128] ++ List.replicate padZeros 0 ++ beBytes 8 (8 * msg.length)

/-- Extend a 16-word block to the 64-word message schedule. -/
def extendSchedule (block : List Nat) : List Nat :=
  go 48 block
where
  go : Nat → List Nat → List Nat
  | 0, acc => acc
  | n + 1, acc =>
      let i := acc.length
      let w := (smallSigma1 (acc.getD (i - 2) 0) + acc.getD (i - 7) 0 +
                smallSigma0 (acc.getD (i - 15) 0) + acc.getD (i - 16) 0) % 4294967296
      go n (acc ++ [w])

/-- Split the word list into 16-word blocks (fueled by the list length). -/
def blocks16 (ws : List Nat) : List (List Nat) :=
  go ws.length ws
where
  go : Nat → List Nat → List (List Nat)
  | 0, _ => []
  | _, [] => []
  | n + 1, l => l.take 16 :: go n (l.drop 16)

/-- SHA-256 compression of one block into the running hash. -/
def compressBlock (h : Hash8) (block : List Nat) : Hash8 :=
  let w := extendSchedule block
  let final := (List.zip shaK w).foldl (fun st kw => shaRound st kw.1 kw.2) h
  ⟨(h.a + final.a) % 4294967296, (h.b + final.b) % 4294967296,
   (h.c + final.c) % 4294967296, (h.d + final.d) % 4294967296,
   (h.e + final.e) % 4294967296, (h.f + final.f) % 4294967296,
   (h.g + final.g) % 4294967296, (h.h + final.h) % 4294967296⟩

/-- SHA-256 digest of a byte list: 32 bytes. -/
def sha256 (msg : List Nat) : List Nat :=
  let final := (blocks16 (toWords (padMessage msg))).foldl compressBlock shaH0
  ([final.a, final.b, final.c, final.d, final.e, final.f, final.g, final.h].map
    (beBytes 4)).flatten

/-- HMAC-SHA-256 per RFC 2104 (block size 64), as the `hmac` crate computes
it: hash an over-long key, zero-pad to the block, xor with the inner and
outer pads. -/
def hmacSha256 (key msg : List Nat) : List Nat :=
  let key := if key.length > 64 then sha256 key else key
  let key := key ++ List.replicate (64 - key.length) 0
  let ipad := key.map (fun b => b ^^^ 0x36)
  let opad := key.map (fun b => b ^^^ 0x5c)
  sha256 (opad ++ sha256 (ipad ++ msg))

/-- UTF-8 encoding of one scalar value, as Rust `str::as_bytes` yields it. -/
def utf8EncodeChar (c : Char) : List Nat :=
  let n := c.toNat
  if n < 128 then [n]
  else if n < 2048 then
    [192 ||| (n >>> 6), 128 ||| (n &&& 63)]
  else if n < 65536 then
    [224 ||| (n >>> 12), 128 ||| ((n >>> 6) &&& 63), 128 ||| (n &&& 63)]
  else
    [240 ||| (n >>> 18), 128 ||| ((n >>> 12) &&& 63),
     128 ||| ((n >>> 6) &&& 63), 128 ||| (n &&& 63)]

/-- UTF-8 bytes of a string. -/
def utf8Encode (s : String) : List Nat :=
  (s.toList.map utf8EncodeChar).flatten

/-- Value of one hex digit, accepting both cases (`hex::decode`). -/
def hexDigitVal (c : Char) : Option Nat :=
  let n := c.toNat
  if 48 ≤ n ∧ n ≤ 57 then some (n - 48)
  else if 97 ≤ n ∧ n ≤ 102 then some (n - 87)
  else if 65 ≤ n ∧ n ≤ 70 then some (n - 55)
  else none

/-- Embeds `hex::decode`: pairs of hex digits to bytes; `none` on odd length or on
any non-hex character. -/
def hexDecode (s : String) : Option (List Nat) :=
  go s.toList
where
  go : List Char → Option (List Nat)
  | [] => some []
  | [_] => none
  | c1 :: c2 :: rest => do
      let hi ← hexDigitVal c1
      let lo ← hexDigitVal c2
      let tail ← go rest
      pure ((16 * hi + lo) :: tail)

/-- Lowercase hex digit of a value below 16 (`hex::encode`). -/
def hexDigitChar (n : Nat) : Char :=
  if n < 10 then Char.ofNat (48 + n) else Char.ofNat (87 + n)

/-- Embeds `hex::encode`: two lowercase hex digits per byte. -/
def hexEncode (bs : List Nat) : String :=
  String.mk ((bs.map (fun b => [hexDigitChar (b / 16), hexDigitChar (b % 16)])).flatten)

/-- Embeds `WebhookHandler::verify_signature` (webhook/handler.rs lines 112-124):
key is `SHA-256(api_token)`, MAC is `HMAC-SHA-256` over the body bytes,
the presented signature is hex-decoded — failure to decode yields `false`
— and `verify_slice` succeeds exactly on MAC equality. -/
def WebhookHandler.verify_signature (h : WebhookHandler) (body signature : String) : Bool :=
  let secret := sha256 (utf8Encode h.api_token)
  let expected := hmacSha256 secret (utf8Encode body)
  match hexDecode signature with
  | some hex_signature => expected = hex_signature
  | none => false

/-- The eleven wire spellings the crypto enumeration matches
(`#[serde(rename_all = "UPPERCASE")]` over the non-sentinel variants). -/
def cryptoWireSpellings : List String :=
  ["USDT", "TON", "BTC", "ETH", "LTC", "BNB", "TRX", "USDC", "DOGE", "SEND", "JET"]

/-- The twenty-three wire spellings the fiat enumeration matches. -/
def fiatWireSpellings : List String :=
  ["USD", "EUR", "RUB", "BYN", "UAH", "GBP", "CNY", "KGS", "KZT", "UZS", "GEL",
   "TRY", "AMD", "THB", "TJS", "INR", "BRL", "IDR", "AZN", "AED", "PLN", "ILS", "LKR"]

/-- Invoice drafts reachable from `new()` by the setters the builder exposes:
exactly the values a caller of the Rust API can construct. -/
inductive InvoiceReachable : InvoiceDraft → Prop where
  | new : InvoiceReachable InvoiceDraft.new
  | amount (d : InvoiceDraft) (v : Decimal) :
      InvoiceReachable d → InvoiceReachable (d.amount v)
  | asset (d : InvoiceDraft) (v : CryptoCurrencyCode) :
      InvoiceReachable d → InvoiceReachable (d.asset v)
  | fiat (d : InvoiceDraft) (v : FiatCurrencyCode) :
      InvoiceReachable d → InvoiceReachable (d.fiat v)
  | paid_btn_name (d : InvoiceDraft) (v : PayButtonName) :
      InvoiceReachable d → InvoiceReachable (d.paid_btn_name v)
  | paid_btn_url (d : InvoiceDraft) (v : String) :
      InvoiceReachable d → InvoiceReachable (d.paid_btn_url v)
  | accept_asset (d : InvoiceDraft) (v : List CryptoCurrencyCode) :
      InvoiceReachable d → InvoiceReachable (d.accept_asset v)
  | description (d : InvoiceDraft) (v : String) :
      InvoiceReachable d → InvoiceReachable (d.description v)
  | hidden_message (d : InvoiceDraft) (v : String) :
      InvoiceReachable d → InvoiceReachable (d.hidden_message v)
  | payload (d : InvoiceDraft) (v : String) :
      InvoiceReachable d → InvoiceReachable (d.payload v)
  | allow_comments (d : InvoiceDraft) (v : Bool) :
      InvoiceReachable d → InvoiceReachable (d.allow_comments v)
  | allow_anonymous (d : InvoiceDraft) (v : Bool) :
      InvoiceReachable d → InvoiceReachable (d.allow_anonymous v)
  | expires_in (d : InvoiceDraft) (v : Nat) :
      InvoiceReachable d → InvoiceReachable (d.expires_in v)

/-! ## Helper lemmas -/

/-- Big-endian byte extraction yields bytes. -/
theorem beBytes_lt (n v : Nat) : ∀ b ∈ beBytes n v, b < 256 := by
  intro b hb
  simp only [beBytes, List.mem_map] at hb
  obtain ⟨i, -, rfl⟩ := hb
  exact Nat.mod_lt _ (by norm_num)

/-- Every SHA-256 output entry is a byte. -/
theorem sha256_bytes_lt (m : List Nat) : ∀ b ∈ sha256 m, b < 256 := by
  intro b hb
  simp only [sha256, List.mem_flatten, List.mem_map] at hb
  obtain ⟨l, ⟨w, -, rfl⟩, hbl⟩ := hb
  exact beBytes_lt 4 w b hbl

/-- Every HMAC-SHA-256 output entry is a byte. -/
theorem hmacSha256_bytes_lt (k m : List Nat) : ∀ b ∈ hmacSha256 k m, b < 256 := by
  intro b hb
  simp only [hmacSha256] at hb
  exact sha256_bytes_lt _ b hb

/-- A SHA-256 digest is 32 bytes long. -/
theorem sha256_length (m : List Nat) : (sha256 m).length = 32 := by
  simp [sha256, beBytes]

/-- An HMAC-SHA-256 tag is 32 bytes long. -/
theorem hmacSha256_length (k m : List Nat) : (hmacSha256 k m).length = 32 := by
  simp only [hmacSha256]
  exact sha256_length _

/-- Hex digit encode/decode round-trip below 16. -/
theorem hexDigitVal_hexDigitChar : ∀ n, n < 16 → hexDigitVal (hexDigitChar n) = some n := by
  decide

/-- Characterization of `verify_signature` with the scrutinee kept abstract:
hex-decode the presented signature and compare with the recomputed MAC.
Definitional, but it stops rewriting from descending into the hash terms. -/
theorem verify_signature_eq (h : WebhookHandler) (body sig : String) :
    h.verify_signature body sig =
      match hexDecode sig with
      | some bs => decide (hmacSha256 (sha256 (utf8Encode h.api_token)) (utf8Encode body) = bs)
      | none => false := rfl

/-- Hex encoding of a byte list decodes back to it. -/
theorem hexDecode_hexEncode (bs : List Nat) (h : ∀ b ∈ bs, b < 256) :
    hexDecode (hexEncode bs) = some bs := by
  have main : ∀ bs : List Nat, (∀ b ∈ bs, b < 256) →
      hexDecode.go ((bs.map
        (fun b => [hexDigitChar (b / 16), hexDigitChar (b % 16)])).flatten) = some bs := by
    intro bs h
    induction bs with
    | nil => rfl
    | cons b rest ih =>
      have hb : b < 256 := h b (by simp)
      have h16a : b / 16 < 16 := by omega
      have h16b : b % 16 < 16 := by omega
      simp only [List.map_cons, List.flatten_cons, List.cons_append, List.nil_append]
      simp only [hexDecode.go, hexDigitVal_hexDigitChar _ h16a,
                 hexDigitVal_hexDigitChar _ h16b, Option.bind_some]
      rw [ih (fun x hx => h x (by simp [hx]))]
      simp [Nat.div_add_mod]
  exact main bs h

/-! ## Claim C1: context validation of amounts -/

/-- C1 counterexample: the claim reads success as "ctx contains an entry whose
source is the asset, target is USD, and `1 ≤ a * rate ≤ 25000`". With two
TON→USD entries where only the second is in range, such an entry exists, yet
`validate_amount` fails with the Range error, because the source checks only
the first matching entry (`find`). -/
theorem c1_counterexample :
    validate_amount 1 .Ton
        ⟨[⟨true, true, false, .Ton, .Usd, 0⟩, ⟨true, true, false, .Ton, .Usd, 1⟩]⟩
      = .error (.ValidationError .Range "Amount must be between 1 and 25000 USD" (some "amount"))
  ∧ ∃ r ∈ ([⟨true, true, false, .Ton, .Usd, 0⟩,
            ⟨true, true, false, .Ton, .Usd, 1⟩] : List ExchangeRate),
      r.source = .Ton ∧ r.target = .Usd ∧
      1 ≤ (1 : Decimal) * r.rate ∧ (1 : Decimal) * r.rate ≤ 25000 := by
  constructor
  · simp [validate_amount, List.find?]
  · exact ⟨⟨true, true, false, .Ton, .Usd, 1⟩, by simp, rfl, rfl, by norm_num, by norm_num⟩

/-- C1 (amended): `validate_amount a asset ctx` is decided by the FIRST entry
of the snapshot whose source is `asset` and whose target is USD: if no such
entry exists the result is the Missing-kind error "exchange_rate_not_found";
if the first such entry satisfies `1 ≤ a * rate ≤ 25000` the validation
succeeds; and if it does not, the result is the Range-kind error on field
"amount". -/
theorem c1_amended (a : Decimal) (asset : CryptoCurrencyCode) (ctx : ValidationContext) :
    (ctx.exchange_rates.find?
        (fun r => decide (r.source = asset) && decide (r.target = FiatCurrencyCode.Usd)) = none →
      validate_amount a asset ctx
        = .error (.ValidationError .Missing "exchange_rate_not_found" (some "exchange_rate")))
  ∧ ∀ r, ctx.exchange_rates.find?
        (fun r => decide (r.source = asset) && decide (r.target = FiatCurrencyCode.Usd)) = some r →
      (1 ≤ a * r.rate ∧ a * r.rate ≤ 25000 → validate_amount a asset ctx = .ok ())
    ∧ (a * r.rate < 1 ∨ 25000 < a * r.rate →
        validate_amount a asset ctx
          = .error (.ValidationError .Range "Amount must be between 1 and 25000 USD" (some "amount"))) := by
  unfold validate_amount
  refine ⟨fun h => by rw [h], fun r h => ⟨fun hin => ?_, fun hout => ?_⟩⟩
  · rw [h]
    simp only []
    rw [if_neg]
    push_neg
    exact ⟨by linarith [hin.1], by linarith [hin.2]⟩
  · rw [h]
    simp only []
    rw [if_pos]
    rcases hout with h1 | h1
    · exact Or.inl h1
    · exact Or.inr h1

/-- C1 witness: a snapshot holding one TON→USD rate of 2 accepts one TON. -/
theorem c1_witness :
    validate_amount 1 .Ton ⟨[⟨true, true, false, .Ton, .Usd, 2⟩]⟩ = .ok () :=
  ((c1_amended 1 .Ton ⟨[⟨true, true, false, .Ton, .Usd, 2⟩]⟩).2
    ⟨true, true, false, .Ton, .Usd, 2⟩ rfl).1 ⟨by norm_num, by norm_num⟩

/-! ## Claim C2: zero amounts and field validation -/

/-- C2 failing input: the field validators reject only NEGATIVE amounts
(`amount < 0`), while their message reads "Amount must be greater than 0".
A draft with amount exactly zero passes invoice and check field validation,
and a fiat invoice draft with amount zero builds successfully into a
finalized request whose amount is 0 — the claimed invariant fails. -/
theorem c2_zero_amount_builds :
    ({ CreateInvoiceParamsBuilder.new with
        currency_type := some .Fiat, fiat := some .Usd }).fieldValidate = .ok ()
  ∧ CreateCheckParamsBuilder.new.fieldValidate = .ok ()
  ∧ ({ CreateInvoiceParamsBuilder.new with
        currency_type := some .Fiat, fiat := some .Usd }).build (.ok [])
      = (.ok ⟨some .Fiat, none, some .Usd, none, 0, none, none, none, none, none,
              none, none, none⟩,
         [.fieldValidate, .fetchRates, .contextValidate]) := by
  refine ⟨rfl, rfl, rfl⟩

/-! ## Claim C3: webhook signature verification -/

/-- C3: for every handler (any API token), body and presented signature,
`verify_signature` accepts exactly the hex encoding of
`HMAC-SHA-256(SHA-256(token), body)`: it returns true on that encoding,
false whenever the presented string decodes to any other byte string, and
false (not an error) whenever the string is not valid hex. -/
theorem c3_verify_signature (h : WebhookHandler) (body sig : String) :
    h.verify_signature body
        (hexEncode (hmacSha256 (sha256 (utf8Encode h.api_token)) (utf8Encode body))) = true
  ∧ (∀ bs, hexDecode sig = some bs →
      bs ≠ hmacSha256 (sha256 (utf8Encode h.api_token)) (utf8Encode body) →
      h.verify_signature body sig = false)
  ∧ (hexDecode sig = none → h.verify_signature body sig = false) := by
  refine ⟨?_, fun bs hbs hne => ?_, fun hnone => ?_⟩
  · rw [verify_signature_eq, hexDecode_hexEncode _ (hmacSha256_bytes_lt _ _)]
    exact decide_eq_true rfl
  · rw [verify_signature_eq, hbs]
    exact decide_eq_false (fun he => hne he.symm)
  · rw [verify_signature_eq, hnone]

/-- C3 witness: with token "test_token" and body "body", the genuine MAC
verifies, the non-hex string "zz" is rejected, and the valid-hex but wrong
byte string "00" is rejected. -/
theorem c3_witness :
    WebhookHandler.verify_signature ⟨"test_token", some 600⟩ "body"
        (hexEncode (hmacSha256 (sha256 (utf8Encode "test_token")) (utf8Encode "body"))) = true
  ∧ WebhookHandler.verify_signature ⟨"test_token", some 600⟩ "body" "zz" = false
  ∧ WebhookHandler.verify_signature ⟨"test_token", some 600⟩ "body" "00" = false :=
  ⟨(c3_verify_signature ⟨"test_token", some 600⟩ "body" "zz").1,
   (c3_verify_signature ⟨"test_token", some 600⟩ "body" "zz").2.2 (by decide),
   (c3_verify_signature ⟨"test_token", some 600⟩ "body" "00").2.1 [0] (by decide)
     (by
       intro hEq
       have hl := congrArg List.length hEq
       rw [hmacSha256_length] at hl
       simp at hl)⟩

/-! ## Claim C4: disabled expiration window -/

/-- C4 failing input: with the expiration window disabled
(`webhook_expiration_time = none`) and an update 1000000 seconds old,
`handle_update` still returns the Expired error — `unwrap_or` substitutes the
600-second default instead of skipping the freshness check, making a
disabled window behave exactly like the default one. -/
theorem c4_disabled_expiration_still_checks :
    WebhookHandler.handleUpdateParsed ⟨"test_token", none⟩ 1000000 0
      = .error (.WebhookError .Expired "Webhook request too old")
  ∧ WebhookHandler.checkExpiration ⟨"test_token", none⟩ 1000000 0
      = WebhookHandler.checkExpiration
          ⟨"test_token", some DEFAULT_WEBHOOK_EXPIRATION_TIME⟩ 1000000 0 := by
  refine ⟨rfl, rfl⟩

/-! ## Claim C5: serialization of list-valued filter fields -/

/-- C5: for each of the three filter-bearing params types, the list field
contributes no key to the serialized body exactly when it is unset or the
empty list, and a non-empty list appears as the comma-joined string of its
elements (a JSON string, never an array). -/
theorem c5_list_filters (p : GetChecksParams) (q : GetInvoicesParams) (t : GetTransfersParams) :
    ("check_ids" ∉ p.serialize.map Prod.fst ↔ p.check_ids = none ∨ p.check_ids = some [])
  ∧ (∀ l, l ≠ [] → p.check_ids = some l →
      ("check_ids", JsonVal.str (serialize_comma_separated_list l)) ∈ p.serialize)
  ∧ ("invoice_ids" ∉ q.serialize.map Prod.fst ↔ q.invoice_ids = none ∨ q.invoice_ids = some [])
  ∧ (∀ l, l ≠ [] → q.invoice_ids = some l →
      ("invoice_ids", JsonVal.str (serialize_comma_separated_list l)) ∈ q.serialize)
  ∧ ("transfer_ids" ∉ t.serialize.map Prod.fst ↔ t.transfer_ids = none ∨ t.transfer_ids = some [])
  ∧ (∀ l, l ≠ [] → t.transfer_ids = some l →
      ("transfer_ids", JsonVal.str (serialize_comma_separated_list l)) ∈ t.serialize) := by
  obtain ⟨pa, pi, ps, po, pc⟩ := p
  obtain ⟨qa, qf, qi, qs, qo, qc⟩ := q
  obtain ⟨ta, ti, tsp, tof, tc⟩ := t
  refine ⟨?_, ?_, ?_, ?_, ?_, ?_⟩
  · cases pa <;> cases ps <;> cases po <;> cases pc <;> cases pi <;>
      simp [GetChecksParams.serialize, GetChecksParams.should_skip_check_ids,
            List.isEmpty_iff]
  · intro l hl hpi
    subst hpi
    cases pa <;> cases ps <;> cases po <;> cases pc <;>
      simp [GetChecksParams.serialize, GetChecksParams.should_skip_check_ids,
            List.isEmpty_iff, hl]
  · cases qa <;> cases qf <;> cases qs <;> cases qo <;> cases qc <;> cases qi <;>
      simp [GetInvoicesParams.serialize, GetInvoicesParams.should_skip_invoice_ids,
            List.isEmpty_iff]
  · intro l hl hqi
    subst hqi
    cases qa <;> cases qf <;> cases qs <;> cases qo <;> cases qc <;>
      simp [GetInvoicesParams.serialize, GetInvoicesParams.should_skip_invoice_ids,
            List.isEmpty_iff, hl]
  · cases ta <;> cases tsp <;> cases tof <;> cases tc <;> cases ti <;>
      simp [GetTransfersParams.serialize, GetTransfersParams.should_skip_transfer_ids,
            List.isEmpty_iff]
  · intro l hl hti
    subst hti
    cases ta <;> cases tsp <;> cases tof <;> cases tc <;>
      simp [GetTransfersParams.serialize, GetTransfersParams.should_skip_transfer_ids,
            List.isEmpty_iff, hl]

/-- C5 witness: `check_ids = [123]` serializes to the string "123", and the
other two filters to their comma-joined strings. -/
theorem c5_witness :
    ("check_ids", JsonVal.str "123") ∈
      (GetChecksParams.serialize ⟨none, some [123], none, none, none⟩)
  ∧ ("invoice_ids", JsonVal.str "7,8") ∈
      (GetInvoicesParams.serialize ⟨none, none, some [7, 8], none, none, none⟩)
  ∧ ("transfer_ids", JsonVal.str "5") ∈
      (GetTransfersParams.serialize ⟨none, some [5], none, none, none⟩) :=
  ⟨(c5_list_filters ⟨none, some [123], none, none, none⟩
      ⟨none, none, some [7, 8], none, none, none⟩
      ⟨none, some [5], none, none, none⟩).2.1 [123] (by simp) rfl,
   (c5_list_filters ⟨none, some [123], none, none, none⟩
      ⟨none, none, some [7, 8], none, none, none⟩
      ⟨none, some [5], none, none, none⟩).2.2.2.1 [7, 8] (by simp) rfl,
   (c5_list_filters ⟨none, some [123], none, none, none⟩
      ⟨none, none, some [7, 8], none, none, none⟩
      ⟨none, some [5], none, none, none⟩).2.2.2.2.2 [5] (by simp) rfl⟩

/-! ## Claim C6: envelope decoding and error mapping -/

/-- C6: the response stage of `make_request` maps a decode failure to the
service error with sentinel code -1 carrying the diagnostic; an envelope
with `ok = false` to the service error built from `error_code` (default 0)
and `error` (default empty); `ok = true` without `result` to the distinct
`NoResult` error; and `ok = true` with a result to that result. -/
theorem c6_envelope (R : Type) (e : String) (resp : ApiResponse R) :
    CryptoBot.processResponse (R := R) (.error e)
      = .error (.ApiError (-1) "Failed to parse API response" (some e))
  ∧ (resp.ok = false →
      CryptoBot.processResponse (.ok resp)
        = .error (.ApiError (resp.error_code.getD 0) (resp.error.getD "") none))
  ∧ (resp.ok = true → resp.result = none →
      CryptoBot.processResponse (.ok resp) = .error .NoResult)
  ∧ (∀ r, resp.ok = true → resp.result = some r →
      CryptoBot.processResponse (.ok resp) = .ok r) := by
  refine ⟨rfl, fun h => ?_, fun h h2 => ?_, fun r h h2 => ?_⟩
  · simp [CryptoBot.processResponse, h]
  · simp [CryptoBot.processResponse, h, h2]
  · simp [CryptoBot.processResponse, h, h2]

/-- C6 witness: a failed envelope with code 42 and message "boom" surfaces
both; `ok` with no result gives `NoResult`; `ok` with result 7 gives 7. -/
theorem c6_witness :
    CryptoBot.processResponse (R := Nat) (.ok ⟨false, none, some "boom", some 42⟩)
      = .error (.ApiError 42 "boom" none)
  ∧ CryptoBot.processResponse (R := Nat) (.ok ⟨true, none, none, none⟩)
      = .error .NoResult
  ∧ CryptoBot.processResponse (R := Nat) (.ok ⟨true, some 7, none, none⟩) = .ok 7 :=
  ⟨(c6_envelope Nat "" ⟨false, none, some "boom", some 42⟩).2.1 rfl,
   (c6_envelope Nat "" ⟨true, none, none, none⟩).2.2.1 rfl rfl,
   (c6_envelope Nat "" ⟨true, some 7, none, none⟩).2.2.2 7 rfl rfl⟩

/-! ## Claim C7: stage ordering inside build -/

/-- C7: in one `build` call (invoice and transfer), a field-validation
failure returns that single error with a trace showing only the field
validation stage — no rate fetch, no context validation; every trace is a
prefix of field-validate, fetch, context-validate in that order; the fetch
happens only after field validation passed; and context validation happens
only after field validation passed and the fetch succeeded. -/
theorem c7_stage_order (b : CreateInvoiceParamsBuilder) (tb : TransferParamsBuilder)
    (fetch1 fetch2 : Except CryptoBotError (List ExchangeRate)) :
    (∀ e, b.fieldValidate = .error e → b.build fetch1 = (.error e, [.fieldValidate]))
  ∧ (∀ res trace, b.build fetch1 = (res, trace) →
      trace = [.fieldValidate]
      ∨ trace = [.fieldValidate, .fetchRates]
      ∨ trace = [.fieldValidate, .fetchRates, .contextValidate])
  ∧ (∀ res trace, b.build fetch1 = (res, trace) → BuildStep.fetchRates ∈ trace →
      b.fieldValidate = .ok ())
  ∧ (∀ res trace, b.build fetch1 = (res, trace) → BuildStep.contextValidate ∈ trace →
      b.fieldValidate = .ok () ∧ ∃ rates, fetch1 = .ok rates)
  ∧ (∀ e, tb.fieldValidate = .error e → tb.build fetch2 = (.error e, [.fieldValidate]))
  ∧ (∀ res trace, tb.build fetch2 = (res, trace) →
      trace = [.fieldValidate]
      ∨ trace = [.fieldValidate, .fetchRates]
      ∨ trace = [.fieldValidate, .fetchRates, .contextValidate])
  ∧ (∀ res trace, tb.build fetch2 = (res, trace) → BuildStep.fetchRates ∈ trace →
      tb.fieldValidate = .ok ())
  ∧ (∀ res trace, tb.build fetch2 = (res, trace) → BuildStep.contextValidate ∈ trace →
      tb.fieldValidate = .ok () ∧ ∃ rates, fetch2 = .ok rates) := by
  refine ⟨fun e he => ?_, fun res trace h => ?_, fun res trace h hmem => ?_,
          fun res trace h hmem => ?_, fun e he => ?_, fun res trace h => ?_,
          fun res trace h hmem => ?_, fun res trace h hmem => ?_⟩
  · simp [CreateInvoiceParamsBuilder.build, he]
  · unfold CreateInvoiceParamsBuilder.build at h
    rcases hv : b.fieldValidate with e | u
    · simp only [hv] at h
      simp at h
      simp [h.2.symm]
    · simp only [hv] at h
      rcases hf : fetch1 with e | rates
      · simp only [hf] at h
        simp at h
        simp [h.2.symm]
      · simp only [hf] at h
        rcases hc : b.validateWithContext ⟨rates⟩ with e | u2
        · simp only [hc] at h
          simp at h
          simp [h.2.symm]
        · simp only [hc] at h
          simp at h
          simp [h.2.symm]
  · unfold CreateInvoiceParamsBuilder.build at h
    rcases hv : b.fieldValidate with e | u
    · simp only [hv] at h
      simp at h
      rw [← h.2] at hmem
      simp at hmem
    · rfl
  · unfold CreateInvoiceParamsBuilder.build at h
    rcases hv : b.fieldValidate with e | u
    · simp only [hv] at h
      simp at h
      rw [← h.2] at hmem
      simp at hmem
    · rcases hf : fetch1 with e | rates
      · simp only [hv, hf] at h
        simp at h
        rw [← h.2] at hmem
        simp at hmem
      · exact ⟨rfl, rates, rfl⟩
  · simp [TransferParamsBuilder.build, he]
  · unfold TransferParamsBuilder.build at h
    rcases hv : tb.fieldValidate with e | u
    · simp only [hv] at h
      simp at h
      simp [h.2.symm]
    · simp only [hv] at h
      rcases hf : fetch2 with e | rates
      · simp only [hf] at h
        simp at h
        simp [h.2.symm]
      · simp only [hf] at h
        rcases hc : validate_amount tb.amount tb.asset ⟨rates⟩ with e | u2
        · simp only [hc] at h
          simp at h
          simp [h.2.symm]
        · simp only [hc] at h
          simp at h
          simp [h.2.symm]
  · unfold TransferParamsBuilder.build at h
    rcases hv : tb.fieldValidate with e | u
    · simp only [hv] at h
      simp at h
      rw [← h.2] at hmem
      simp at hmem
    · rfl
  · unfold TransferParamsBuilder.build at h
    rcases hv : tb.fieldValidate with e | u
    · simp only [hv] at h
      simp at h
      rw [← h.2] at hmem
      simp at hmem
    · rcases hf : fetch2 with e | rates
      · simp only [hv, hf] at h
        simp at h
        rw [← h.2] at hmem
        simp at hmem
      · exact ⟨rfl, rates, rfl⟩

/-- C7 witness: an invoice draft with `expires_in = 0` and a transfer draft
with a 65-character spend id each fail field validation and return with a
trace of only that stage — the fetch never runs. -/
theorem c7_witness :
    ({ CreateInvoiceParamsBuilder.new with expires_in := some 0 }).build (.ok [])
      = (.error (.ValidationError .Range "expires_in_invalid" (some "expires_in")),
         [.fieldValidate])
  ∧ ({ TransferParamsBuilder.new with
        spend_id := String.mk (List.replicate 65 'x') }).build (.ok [])
      = (.error (.ValidationError .Range "Spend ID must be less than 64 symbols"
                  (some "spend_id")),
         [.fieldValidate]) :=
  ⟨(c7_stage_order { CreateInvoiceParamsBuilder.new with expires_in := some 0 }
      { TransferParamsBuilder.new with
        spend_id := String.mk (List.replicate 65 'x') } (.ok []) (.ok [])).1
      _ rfl,
   (c7_stage_order { CreateInvoiceParamsBuilder.new with expires_in := some 0 }
      { TransferParamsBuilder.new with
        spend_id := String.mk (List.replicate 65 'x') } (.ok []) (.ok [])).2.2.2.2.1
      _ rfl⟩

/-! ## Claim C8: setter frame conditions -/

/-- C8 counterexample: the invoice `fiat` setter does not leave every other
field unchanged — on a fresh draft it overwrites `currency_type` from
`Some(Crypto)` to `Some(Fiat)`. -/
theorem c8_counterexample :
    InvoiceDraft.new.params.currency_type = some .Crypto
  ∧ ((InvoiceDraft.new.fiat .Usd).params.currency_type = some .Fiat)
  ∧ (InvoiceDraft.new.fiat .Usd).params.currency_type
      ≠ InvoiceDraft.new.params.currency_type := by
  refine ⟨rfl, rfl, by decide⟩

/-- C8 (amended): each mandatory-field setter marks exactly its own
typestate slot as set and assigns its own field, leaving every other field
and flag unchanged — except that the invoice `asset` and `fiat` setters
additionally overwrite `currency_type` to `Crypto` and `Fiat` respectively.
The transfer setters satisfy the exact frame condition. -/
theorem c8_amended (d : InvoiceDraft) (t : TransferDraft) (v : Decimal)
    (a : CryptoCurrencyCode) (f : FiatCurrencyCode) (u : Nat) (s : String) :
    d.amount v = ⟨{ d.params with amount := v }, { d.marker with amount_set := true }⟩
  ∧ d.asset a = ⟨{ d.params with currency_type := some .Crypto, asset := some a },
                 { d.marker with currency_set := true }⟩
  ∧ d.fiat f = ⟨{ d.params with currency_type := some .Fiat, fiat := some f },
                { d.marker with currency_set := true }⟩
  ∧ t.user_id u = ⟨{ t.params with user_id := u }, { t.marker with user_id_set := true }⟩
  ∧ t.asset a = ⟨{ t.params with asset := a }, { t.marker with asset_set := true }⟩
  ∧ t.amount v = ⟨{ t.params with amount := v }, { t.marker with amount_set := true }⟩
  ∧ t.spend_id s = ⟨{ t.params with spend_id := s }, { t.marker with spend_id_set := true }⟩ :=
  ⟨rfl, rfl, rfl, rfl, rfl, rfl, rfl⟩

/-! ## Claim C9: unknown currency codes -/

/-- C9 counterexample: "XXX" is not a known spelling; both enumerations map
it to the `Unknown` sentinel, but `deserialize_currency_code` — the parser
of the combined `CurrencyCode` — rejects it with an error instead of
returning a sentinel, contradicting the claim that parsing a currency code
always succeeds. -/
theorem c9_counterexample :
    CryptoCurrencyCode.fromWire "XXX" = .Unknown
  ∧ FiatCurrencyCode.fromWire "XXX" = .Unknown
  ∧ deserialize_currency_code "XXX" = .error "Invalid currency code: XXX" := by
  refine ⟨rfl, rfl, rfl⟩

/-- C9 (amended): for every string outside both closed spelling sets, each
ENUMERATION parser succeeds with the distinct `Unknown` sentinel, while the
combined `CurrencyCode` parser `deserialize_currency_code` rejects the
string with an "Invalid currency code" error. -/
theorem c9_amended (s : String) (h1 : s ∉ cryptoWireSpellings) (h2 : s ∉ fiatWireSpellings) :
    CryptoCurrencyCode.fromWire s = .Unknown
  ∧ FiatCurrencyCode.fromWire s = .Unknown
  ∧ deserialize_currency_code s = .error ("Invalid currency code: " ++ s) := by
  have hc : CryptoCurrencyCode.fromWire s = .Unknown := by
    unfold CryptoCurrencyCode.fromWire
    split <;> simp_all [cryptoWireSpellings]
  have hf : FiatCurrencyCode.fromWire s = .Unknown := by
    unfold FiatCurrencyCode.fromWire
    split <;> simp_all [fiatWireSpellings]
  exact ⟨hc, hf, by simp [deserialize_currency_code, hc, hf]⟩

/-- C9 witness: the lowercase "usdt" is not a known spelling; it parses to
`Unknown` in both enumerations and is rejected by the combined parser. -/
theorem c9_witness :
    CryptoCurrencyCode.fromWire "usdt" = .Unknown
  ∧ FiatCurrencyCode.fromWire "usdt" = .Unknown
  ∧ deserialize_currency_code "usdt" = .error ("Invalid currency code: " ++ "usdt") :=
  c9_amended "usdt" (by simp [cryptoWireSpellings]) (by simp [fiatWireSpellings])

/-! ## Claim C10: currency type is always concrete -/

/-- C10: a fresh invoice draft has `currency_type = Some(Crypto)` and amount
zero; the `asset` and `fiat` setters overwrite `currency_type` to `Crypto`
and `Fiat`; every draft reachable from `new()` keeps a concrete (non-`None`)
`currency_type`; and hence every successfully built invoice carries a
concrete `currency_type`, even when the caller never set one. -/
theorem c10_currency_type_concrete :
    CreateInvoiceParamsBuilder.new.currency_type = some .Crypto
  ∧ CreateInvoiceParamsBuilder.new.amount = 0
  ∧ (∀ (d : InvoiceDraft) (v : CryptoCurrencyCode),
      (d.asset v).params.currency_type = some .Crypto)
  ∧ (∀ (d : InvoiceDraft) (v : FiatCurrencyCode),
      (d.fiat v).params.currency_type = some .Fiat)
  ∧ (∀ d, InvoiceReachable d → d.params.currency_type.isSome = true)
  ∧ (∀ d fetch p trace, InvoiceReachable d →
      d.params.build fetch = (.ok p, trace) → p.currency_type.isSome = true) := by
  have hreach : ∀ d, InvoiceReachable d → d.params.currency_type.isSome = true := by
    intro d hd
    induction hd with
    | new => rfl
    | amount d v _ ih => exact ih
    | asset d v _ _ => rfl
    | fiat d v _ _ => rfl
    | paid_btn_name d v _ ih => exact ih
    | paid_btn_url d v _ ih => exact ih
    | accept_asset d v _ ih => exact ih
    | description d v _ ih => exact ih
    | hidden_message d v _ ih => exact ih
    | payload d v _ ih => exact ih
    | allow_comments d v _ ih => exact ih
    | allow_anonymous d v _ ih => exact ih
    | expires_in d v _ ih => exact ih
  refine ⟨rfl, rfl, fun d v => rfl, fun d v => rfl, hreach, ?_⟩
  intro d fetch p trace hd hb
  have hp : p.currency_type = d.params.currency_type := by
    unfold CreateInvoiceParamsBuilder.build at hb
    rcases hv : d.params.fieldValidate with e | u
    · simp only [hv] at hb
      simp at hb
    · simp only [hv] at hb
      rcases hf : fetch with e | rates
      · simp only [hf] at hb
        simp at hb
      · simp only [hf] at hb
        rcases hc : d.params.validateWithContext ⟨rates⟩ with e | u2
        · simp only [hc] at hb
          simp at hb
        · simp only [hc] at hb
          simp at hb
          rw [← hb.1]
  rw [hp]
  exact hreach d hd

/-- C10 witness: the draft built from `new().amount(5).asset(Ton)` against a
snapshot with a TON→USD rate of 1 finalizes, and the finalized request has a
concrete currency type. -/
theorem c10_witness :
    Option.isSome (CreateInvoiceParams.currency_type
      ⟨some .Crypto, some .Ton, none, none, 5, none, none, none,
       none, none, none, none, none⟩) = true :=
  c10_currency_type_concrete.2.2.2.2.2
    ((InvoiceDraft.new.amount 5).asset .Ton)
    (.ok [⟨true, true, false, .Ton, .Usd, 1⟩])
    ⟨some .Crypto, some .Ton, none, none, 5, none, none, none,
     none, none, none, none, none⟩
    [.fieldValidate, .fetchRates, .contextValidate]
    (.asset _ _ (.amount _ _ .new))
    (by simp [CreateInvoiceParamsBuilder.build, CreateInvoiceParamsBuilder.fieldValidate,
              CreateInvoiceParamsBuilder.validateWithContext, validate_amount, List.find?,
              InvoiceDraft.new, InvoiceDraft.amount, InvoiceDraft.asset,
              CreateInvoiceParamsBuilder.new] <;> rfl)

end CryptoPay
